import Mathlib

/-!
Shallow embedding of the k8s-kost cost-analysis core
(`backend/internal/analyzer/rightsizing.go`,
`backend/internal/api/handlers.go` (SimulateCosts),
`backend/pkg/resilience/circuit_breaker.go`).

Go float64 arithmetic is embedded over `ℚ`; the spec states all formulas
as exact real-number equations, and no claim depends on rounding of
binary floating point. Fallible paths are `Option`-valued.
-/

namespace Kost

/-- Mirrors the `Recommendation` struct of `rightsizing.go` (the
database/identity fields `Namespace`, `PodName`, `ContainerName`,
`LastUpdated`, which the arithmetic never touches, are omitted). -/
structure Recommendation where
  resourceType : String
  currentRequest : ℚ
  currentLimit : ℚ
  recommendedRequest : ℚ
  recommendedLimit : ℚ
  p50Usage : ℚ
  p95Usage : ℚ
  p99Usage : ℚ
  maxUsage : ℚ
  potentialSavings : ℚ
  confidence : ℚ
  reasoning : String
  riskLevel : String
deriving DecidableEq, Repr

/-- The configuration fields of `RightsizingAnalyzer` that the
recommendation arithmetic reads (`wasteThreshold`). -/
structure RightsizingAnalyzer where
  wasteThreshold : ℚ
deriving DecidableEq, Repr

/-- `NewRightsizingAnalyzer`: default waste threshold 0.30. -/
def NewRightsizingAnalyzer : RightsizingAnalyzer :=
  { wasteThreshold := 3/10 }

/-- `calculateConfidence` from `rightsizing.go`. -/
def calculateConfidence (dataPoints : ℕ) (cv : ℚ) : ℚ :=
  let baseConfidence := min ((dataPoints : ℚ) / 1000) 1
  let variabilityFactor := 1 - cv * (5/10)
  let variabilityFactor := if variabilityFactor < 3/10 then (3/10 : ℚ) else variabilityFactor
  let confidence := baseConfidence * variabilityFactor
  let confidence := if confidence < 1/10 then (1/10 : ℚ) else confidence
  let confidence := if confidence > 95/100 then (95/100 : ℚ) else confidence
  confidence

/-- The `cv`-tier branch of `calculateCPURecommendation`: the initial
`recommendedLimit`, `reasoning` and `riskLevel` chosen by variability. -/
def cpuLimitTier (cv p99 maxV : ℚ) : ℚ × String × String :=
  if cv < 3/10 then
    (p99 * (12/10), "Low variability workload, using P99 + 20% for limit", "LOW")
  else if cv < 6/10 then
    (max (p99 * (15/10)) maxV, "Medium variability workload, using max(P99*1.5, max) for limit", "MEDIUM")
  else
    (maxV * (13/10), "High variability workload, using max + 30% for limit", "HIGH")

/-- `calculateCPURecommendation` from `rightsizing.go`, in the source's
statement order: cv guard, confidence, request = p95*1.15, tiered limit,
waste gate (returning `none` = Go `nil`), savings from the pre-floor
request, then the 10-millicore request floor and 1.5x-request limit
floor with their reasoning annotations. -/
def calculateCPURecommendation (ra : RightsizingAnalyzer)
    (currentRequest currentLimit p50 p95 p99 maxV avg stddev : ℚ)
    (dataPoints : ℕ) : Option Recommendation :=
  let cv := if avg = 0 then 0 else stddev / avg
  let confidence := calculateConfidence dataPoints cv
  let safetyMargin : ℚ := 115/100
  let recommendedRequest := p95 * safetyMargin
  let tier := cpuLimitTier cv p99 maxV
  let recommendedLimit := tier.1
  let reasoning := tier.2.1
  let riskLevel := tier.2.2
  let waste := (currentRequest - p95) / currentRequest
  if waste < ra.wasteThreshold ∧ confidence > 7/10 then
    none
  else
    let costPerMillicore : ℚ := 1/100000
    let hourlyCurrentCost := currentRequest * costPerMillicore
    let hourlyRecommendedCost := recommendedRequest * costPerMillicore
    let monthlySavings := (hourlyCurrentCost - hourlyRecommendedCost) * 24 * 30
    let req2 := if recommendedRequest < 10 then (10 : ℚ) else recommendedRequest
    let reasoning2 :=
      if recommendedRequest < 10 then reasoning ++ " (adjusted to minimum 10m CPU)" else reasoning
    let lim2 := if recommendedLimit < req2 * (15/10) then req2 * (15/10) else recommendedLimit
    let reasoning3 :=
      if recommendedLimit < req2 * (15/10) then reasoning2 ++ " (adjusted limit to 1.5x request)"
      else reasoning2
    some {
      resourceType := "CPU"
      currentRequest := currentRequest
      currentLimit := currentLimit
      recommendedRequest := req2
      recommendedLimit := lim2
      p50Usage := p50
      p95Usage := p95
      p99Usage := p99
      maxUsage := maxV
      potentialSavings := monthlySavings
      confidence := confidence
      reasoning := reasoning3
      riskLevel := riskLevel }

/-- The risk-tier branch of `calculateMemoryRecommendation`. -/
def memRiskLevel (cv : ℚ) : String :=
  if cv < 3/10 then "LOW" else if cv < 6/10 then "MEDIUM" else "HIGH"

/-- `calculateMemoryRecommendation` from `rightsizing.go`: request =
p95*1.1, limit = max*1.2, both rounded up to whole MiB, waste gate,
savings from the rounded pre-floor request, 64 MiB request minimum and
1.5x-request limit floor. -/
def calculateMemoryRecommendation (ra : RightsizingAnalyzer)
    (currentRequest currentLimit p50 p95 p99 maxV avg stddev : ℚ)
    (dataPoints : ℕ) : Option Recommendation :=
  let cv := if avg = 0 then 0 else stddev / avg
  let confidence := calculateConfidence dataPoints cv
  let oomBuffer : ℚ := 12/10
  let recommendedRequest := p95 * (11/10)
  let recommendedLimit := maxV * oomBuffer
  let recommendedRequest := (⌈recommendedRequest / 1048576⌉ : ℚ) * 1048576
  let recommendedLimit := (⌈recommendedLimit / 1048576⌉ : ℚ) * 1048576
  let waste := (currentRequest - p95) / currentRequest
  if waste < ra.wasteThreshold ∧ confidence > 7/10 then
    none
  else
    let costPerByte : ℚ := 1/100000000
    let hourlyCurrentCost := currentRequest * costPerByte
    let hourlyRecommendedCost := recommendedRequest * costPerByte
    let monthlySavings := (hourlyCurrentCost - hourlyRecommendedCost) * 24 * 30
    let riskLevel := memRiskLevel cv
    let req2 :=
      if recommendedRequest < 64 * 1024 * 1024 then ((64 : ℚ) * 1024 * 1024)
      else recommendedRequest
    let lim2 := if recommendedLimit < req2 * (15/10) then req2 * (15/10) else recommendedLimit
    some {
      resourceType := "Memory"
      currentRequest := currentRequest
      currentLimit := currentLimit
      recommendedRequest := req2
      recommendedLimit := lim2
      p50Usage := p50
      p95Usage := p95
      p99Usage := p99
      maxUsage := maxV
      potentialSavings := monthlySavings
      confidence := confidence
      reasoning := "Memory recommendation with OOM prevention buffer"
      riskLevel := riskLevel }

/-- One entry of the `changes` list decoded by `SimulateCosts` in
`handlers.go`. `currentCpuRequest`/`currentMemoryRequest` model the
values the `getCurrentAllocation` lookup returns for this change
(keys "cpu_request" and "memory_request"). -/
structure SimChange where
  cpuRequest : ℚ
  cpuLimit : ℚ
  memoryRequest : ℚ
  memoryLimit : ℚ
  replicas : ℤ
  currentCpuRequest : ℚ
  currentMemoryRequest : ℚ
deriving DecidableEq, Repr

/-- The per-change cost delta accumulated by `SimulateCosts`:
`cpuDelta + memoryDelta` with unit costs 0.00001 and 0.00000001. -/
def simChangeDelta (c : SimChange) : ℚ :=
  (c.cpuRequest - c.currentCpuRequest) * (1/100000) * (c.replicas : ℚ)
  + (c.memoryRequest - c.currentMemoryRequest) * (1/100000000) * (c.replicas : ℚ)

/-- The period-multiplier switch of `SimulateCosts` (default branch is
`24 * 30`, like the Go `switch`). -/
def periodMultiplier (period : String) : ℚ :=
  if period = "daily" then 24
  else if period = "monthly" then 24 * 30
  else if period = "yearly" then 24 * 365
  else 24 * 30

/-- The response fields computed by `SimulateCosts`. -/
structure SimResult where
  currentCost : ℚ
  projectedCost : ℚ
  costDifference : ℚ
  savings : ℚ
  savingsPercent : ℚ
  breakdownCompute : ℚ
  breakdownStorage : ℚ
  breakdownNetwork : ℚ
  breakdownOther : ℚ
deriving DecidableEq, Repr

/-- `SimulateCosts` from `handlers.go`: `currentCosts` is the namespace
baseline hourly cost returned by `getCurrentCosts`. -/
def SimulateCosts (currentCosts : ℚ) (changes : List SimChange) (period : String) : SimResult :=
  let costDelta := changes.foldl (fun acc c => acc + simChangeDelta c) 0
  let multiplier := periodMultiplier period
  let projectedCost := (currentCosts + costDelta) * multiplier
  let savings := currentCosts * multiplier - projectedCost
  { currentCost := currentCosts * multiplier
    projectedCost := projectedCost
    costDifference := costDelta * multiplier
    savings := savings
    savingsPercent := savings / (currentCosts * multiplier) * 100
    breakdownCompute := projectedCost * (6/10)
    breakdownStorage := projectedCost * (2/10)
    breakdownNetwork := projectedCost * (15/100)
    breakdownOther := projectedCost * (5/100) }

/-- The three circuit-breaker states of `circuit_breaker.go`
(`StateClosed`, `StateOpen`, `StateHalfOpen`). -/
inductive CBState where
  | closed
  | opened
  | halfOpen
deriving DecidableEq, Repr

/-- The `CircuitBreaker` struct, with wall-clock instants over `ℚ`. -/
structure CircuitBreaker where
  state : CBState
  failures : ℕ
  threshold : ℕ
  timeout : ℚ
  lastFailure : ℚ
  successes : ℕ
  successThreshold : ℕ
deriving DecidableEq, Repr

/-- `NewCircuitBreaker`: closed, success threshold 3 (the zero-valued
fields mirror Go zero initialisation). -/
def NewCircuitBreaker (threshold : ℕ) (timeout : ℚ) : CircuitBreaker :=
  { state := .closed, failures := 0, threshold := threshold, timeout := timeout,
    lastFailure := 0, successes := 0, successThreshold := 3 }

/-- `canExecute` at instant `now`: returns whether the call is allowed
and the breaker after the Open-to-HalfOpen timeout transition
(`time.Since(lastFailure) > timeout` is `now - lastFailure > timeout`). -/
def canExecute (cb : CircuitBreaker) (now : ℚ) : Bool × CircuitBreaker :=
  match cb.state with
  | .closed => (true, cb)
  | .opened =>
    if now - cb.lastFailure > cb.timeout then (true, { cb with state := .halfOpen })
    else (false, cb)
  | .halfOpen => (true, cb)

/-- `recordResult` at instant `now`; `failed = true` is a non-nil error
from the wrapped function. -/
def recordResult (cb : CircuitBreaker) (now : ℚ) (failed : Bool) : CircuitBreaker :=
  if failed then
    let cb2 := { cb with failures := cb.failures + 1, lastFailure := now, successes := 0 }
    if cb2.state = .closed ∧ cb2.failures ≥ cb2.threshold then { cb2 with state := .opened }
    else if cb2.state = .halfOpen then { cb2 with state := .opened }
    else cb2
  else
    let cb2 := { cb with failures := 0, successes := cb.successes + 1 }
    if cb2.state = .halfOpen ∧ cb2.successes ≥ cb2.successThreshold then { cb2 with state := .closed }
    else cb2

/-- `Execute` at instant `now`, with the wrapped function's outcome
abstracted as `failed`. First component: whether the wrapped function
was invoked (false = short-circuited with the immediate
"circuit breaker is open" error). -/
def Execute (cb : CircuitBreaker) (now : ℚ) (failed : Bool) : Bool × CircuitBreaker :=
  let allowed := canExecute cb now
  if allowed.1 then (true, recordResult allowed.2 now failed)
  else (false, allowed.2)

/-- Division that fails (like a meaningless float division) on a zero
denominator; used to check well-definedness of the analyzer arithmetic. -/
def checkedDiv (a b : ℚ) : Option ℚ :=
  if b = 0 then none else some (a / b)

/-- `calculateCPURecommendation` with its one unguarded division (the
waste computation) checked: `none` when that division has denominator
zero. The `cv` division needs no check because the source guards it
(`cv` is overwritten with 0 when `avg == 0`). -/
def calculateCPURecommendationChecked (ra : RightsizingAnalyzer)
    (currentRequest currentLimit p50 p95 p99 maxV avg stddev : ℚ)
    (dataPoints : ℕ) : Option (Option Recommendation) :=
  let cv := if avg = 0 then 0 else stddev / avg
  let confidence := calculateConfidence dataPoints cv
  let safetyMargin : ℚ := 115/100
  let recommendedRequest := p95 * safetyMargin
  let tier := cpuLimitTier cv p99 maxV
  let recommendedLimit := tier.1
  let reasoning := tier.2.1
  let riskLevel := tier.2.2
  match checkedDiv (currentRequest - p95) currentRequest with
  | none => none
  | some waste =>
    some (
      if waste < ra.wasteThreshold ∧ confidence > 7/10 then
        none
      else
        let costPerMillicore : ℚ := 1/100000
        let hourlyCurrentCost := currentRequest * costPerMillicore
        let hourlyRecommendedCost := recommendedRequest * costPerMillicore
        let monthlySavings := (hourlyCurrentCost - hourlyRecommendedCost) * 24 * 30
        let req2 := if recommendedRequest < 10 then (10 : ℚ) else recommendedRequest
        let reasoning2 :=
          if recommendedRequest < 10 then reasoning ++ " (adjusted to minimum 10m CPU)" else reasoning
        let lim2 := if recommendedLimit < req2 * (15/10) then req2 * (15/10) else recommendedLimit
        let reasoning3 :=
          if recommendedLimit < req2 * (15/10) then reasoning2 ++ " (adjusted limit to 1.5x request)"
          else reasoning2
        some {
          resourceType := "CPU"
          currentRequest := currentRequest
          currentLimit := currentLimit
          recommendedRequest := req2
          recommendedLimit := lim2
          p50Usage := p50
          p95Usage := p95
          p99Usage := p99
          maxUsage := maxV
          potentialSavings := monthlySavings
          confidence := confidence
          reasoning := reasoning3
          riskLevel := riskLevel })

/-- `calculateMemoryRecommendation` with the unguarded waste division
checked, analogous to `calculateCPURecommendationChecked`. -/
def calculateMemoryRecommendationChecked (ra : RightsizingAnalyzer)
    (currentRequest currentLimit p50 p95 p99 maxV avg stddev : ℚ)
    (dataPoints : ℕ) : Option (Option Recommendation) :=
  let cv := if avg = 0 then 0 else stddev / avg
  let confidence := calculateConfidence dataPoints cv
  let oomBuffer : ℚ := 12/10
  let recommendedRequest := p95 * (11/10)
  let recommendedLimit := maxV * oomBuffer
  let recommendedRequest := (⌈recommendedRequest / 1048576⌉ : ℚ) * 1048576
  let recommendedLimit := (⌈recommendedLimit / 1048576⌉ : ℚ) * 1048576
  match checkedDiv (currentRequest - p95) currentRequest with
  | none => none
  | some waste =>
    some (
      if waste < ra.wasteThreshold ∧ confidence > 7/10 then
        none
      else
        let costPerByte : ℚ := 1/100000000
        let hourlyCurrentCost := currentRequest * costPerByte
        let hourlyRecommendedCost := recommendedRequest * costPerByte
        let monthlySavings := (hourlyCurrentCost - hourlyRecommendedCost) * 24 * 30
        let riskLevel := memRiskLevel cv
        let req2 :=
          if recommendedRequest < 64 * 1024 * 1024 then ((64 : ℚ) * 1024 * 1024)
          else recommendedRequest
        let lim2 := if recommendedLimit < req2 * (15/10) then req2 * (15/10) else recommendedLimit
        some {
          resourceType := "Memory"
          currentRequest := currentRequest
          currentLimit := currentLimit
          recommendedRequest := req2
          recommendedLimit := lim2
          p50Usage := p50
          p95Usage := p95
          p99Usage := p99
          maxUsage := maxV
          potentialSavings := monthlySavings
          confidence := confidence
          reasoning := "Memory recommendation with OOM prevention buffer"
          riskLevel := riskLevel })

/-! ### Shared helper lemmas and concrete evaluation facts -/

/-- A clamp-from-below written as the source writes it equals `max`. -/
lemma if_lt_right (a b : ℚ) : (if a < b then b else a) = max a b := by
  rcases le_or_lt b a with h | h
  · rw [if_neg (not_lt.mpr h), max_eq_left h]
  · rw [if_pos h, max_eq_right h.le]

/-- A clamp-from-above written as the source writes it equals `min`. -/
lemma if_gt_right (a b : ℚ) : (if a > b then b else a) = min a b := by
  rcases le_or_lt a b with h | h
  · rw [if_neg (not_lt.mpr h), min_eq_left h]
  · rw [if_pos h, min_eq_right h.le]

/-- `calculateConfidence` always lands in the clamp interval. -/
lemma calculateConfidence_bounds (n : ℕ) (cv : ℚ) :
    1/10 ≤ calculateConfidence n cv ∧ calculateConfidence n cv ≤ 95/100 := by
  simp only [calculateConfidence]
  split_ifs <;> constructor <;> linarith

/-- Rounding up to whole MiB never decreases a quantity. -/
lemma ceil_mib_ge (x : ℚ) : x ≤ (⌈x / 1048576⌉ : ℚ) * 1048576 := by
  have h1 : x / 1048576 ≤ (⌈x / 1048576⌉ : ℚ) := Int.le_ceil _
  calc x = x / 1048576 * 1048576 := by field_simp
    _ ≤ (⌈x / 1048576⌉ : ℚ) * 1048576 := mul_le_mul_of_nonneg_right h1 (by norm_num)

/-- The memory recommendation emitted for currentRequest 1000 MiB,
p95 = 650·MiB/11 (so the rounded request is the odd value 65 MiB),
max = 70 MiB, mean 1, stddev 0, 500 samples. -/
def memExampleRec : Recommendation :=
  { resourceType := "Memory"
    currentRequest := 1048576000
    currentLimit := 0
    recommendedRequest := 68157440
    recommendedLimit := 102236160
    p50Usage := 0
    p95Usage := 681574400/11
    p99Usage := 0
    maxUsage := 73400320
    potentialSavings := 110297088/15625
    confidence := 1/2
    reasoning := "Memory recommendation with OOM prevention buffer"
    riskLevel := "LOW" }

/-- Concrete evaluation of the memory recommendation on the
`memExampleRec` inputs. -/
lemma mem_example_eq :
    calculateMemoryRecommendation NewRightsizingAnalyzer 1048576000 0 0
      (650 * 1048576 / 11) 0 (70 * 1048576) 1 0 500 = some memExampleRec := by
  norm_num [calculateMemoryRecommendation, calculateConfidence, memRiskLevel,
    NewRightsizingAnalyzer, memExampleRec]

/-- The CPU recommendation emitted on the spec's worked example
(p50=100, p95=180, p99=220, max=250, mean=120, stddev=30, 500 samples,
currentRequest=400, currentLimit=800). -/
def cpuExampleRec : Recommendation :=
  { resourceType := "CPU"
    currentRequest := 400
    currentLimit := 800
    recommendedRequest := 207
    recommendedLimit := 621/2
    p50Usage := 100
    p95Usage := 180
    p99Usage := 220
    maxUsage := 250
    potentialSavings := 1737/1250
    confidence := 7/16
    reasoning := "Low variability workload, using P99 + 20% for limit" ++
      " (adjusted limit to 1.5x request)"
    riskLevel := "LOW" }

/-- Concrete evaluation of the CPU recommendation on the worked example. -/
lemma cpu_example_eq :
    calculateCPURecommendation NewRightsizingAnalyzer 400 800 100 180 220 250 120 30 500 =
      some cpuExampleRec := by
  norm_num [calculateCPURecommendation, calculateConfidence, cpuLimitTier,
    NewRightsizingAnalyzer, cpuExampleRec]

/-! ### Claim theorems -/

/-- C1: for every workload and resource kind (with a nonzero current
request, so the waste ratio is meaningful), the recommender suppresses
the recommendation (returns `none`) iff
`(currentRequest - p95)/currentRequest < 0.30` and the computed
confidence exceeds 0.7; and in the scenario currentRequest=1000,
p95=800 (waste 0.20) with confidence 0.5 a recommendation is still
emitted because the confidence conjunct fails. -/
theorem waste_gate_conjunctive :
    (∀ (cr cl p50 p95 p99 maxV avg sd : ℚ) (n : ℕ), cr ≠ 0 →
      (calculateCPURecommendation NewRightsizingAnalyzer cr cl p50 p95 p99 maxV avg sd n = none ↔
        ((cr - p95)/cr < 3/10 ∧
          calculateConfidence n (if avg = 0 then 0 else sd/avg) > 7/10)) ∧
      (calculateMemoryRecommendation NewRightsizingAnalyzer cr cl p50 p95 p99 maxV avg sd n = none ↔
        ((cr - p95)/cr < 3/10 ∧
          calculateConfidence n (if avg = 0 then 0 else sd/avg) > 7/10))) ∧
    (calculateCPURecommendation NewRightsizingAnalyzer 1000 1000 700 800 850 900 120 0 500 ≠ none ∧
      calculateConfidence 500 (if (120 : ℚ) = 0 then 0 else 0/120) = 1/2 ∧
      ((1000 : ℚ) - 800)/1000 = 1/5 ∧ ((1/5 : ℚ) < 3/10)) := by
  refine ⟨fun cr cl p50 p95 p99 maxV avg sd n _ => ⟨?_, ?_⟩, ?_, ?_, by norm_num, by norm_num⟩
  · simp only [calculateCPURecommendation, NewRightsizingAnalyzer]
    by_cases hgg : ((cr - p95)/cr < 3/10 ∧
        calculateConfidence n (if avg = 0 then 0 else sd/avg) > 7/10)
    · simp [hgg]
    · simp [hgg]
  · simp only [calculateMemoryRecommendation, NewRightsizingAnalyzer]
    by_cases hgg : ((cr - p95)/cr < 3/10 ∧
        calculateConfidence n (if avg = 0 then 0 else sd/avg) > 7/10)
    · simp [hgg]
    · simp [hgg]
  · intro hc
    norm_num [calculateCPURecommendation, calculateConfidence, cpuLimitTier,
      NewRightsizingAnalyzer] at hc
    exact Option.noConfusion hc
  · norm_num [calculateConfidence]

/-- C1 witness: at currentRequest=1000, p95=800, mean=120, stddev=42
(cv=0.35), 1000 samples the confidence is 0.825 > 0.7 and the waste
0.2 < 0.3, so the gate suppresses; the theorem's iff applied at these
concrete inputs yields `none`. -/
theorem waste_gate_conjunctive_witness :
    calculateMemoryRecommendation NewRightsizingAnalyzer 1000 0 0 800 0 900 120 42 1000 = none :=
  ((waste_gate_conjunctive.1 1000 0 0 800 0 900 120 42 1000 (by norm_num)).2).mpr
    (by norm_num [calculateConfidence])

/-- C2: on the worked example (p50=100, p95=180, p99=220, max=250,
mean=120, stddev=30, 500 samples, currentRequest=400) the CPU branch
emits a recommendation with request 207, limit 310.5 (the 1.5x-request
floor dominating p99·1.2 = 264, annotated in the reasoning),
confidence 0.4375 and risk LOW; the waste 0.55 is not below the 0.30
threshold, so it is not suppressed. -/
theorem cpu_worked_example :
    calculateCPURecommendation NewRightsizingAnalyzer 400 800 100 180 220 250 120 30 500 =
      some
        { resourceType := "CPU"
          currentRequest := 400
          currentLimit := 800
          recommendedRequest := 207
          recommendedLimit := 621/2
          p50Usage := 100
          p95Usage := 180
          p99Usage := 220
          maxUsage := 250
          potentialSavings := 1737/1250
          confidence := 7/16
          reasoning := "Low variability workload, using P99 + 20% for limit" ++
            " (adjusted limit to 1.5x request)"
          riskLevel := "LOW" } ∧
    ((400 : ℚ) - 180)/400 = 11/20 ∧ ¬((11/20 : ℚ) < 3/10) ∧ (220 : ℚ) * (12/10) = 264 := by
  refine ⟨?_, by norm_num, by norm_num, by norm_num⟩
  norm_num [calculateCPURecommendation, calculateConfidence, cpuLimitTier,
    NewRightsizingAnalyzer]

/-- C3: the computed confidence equals
`clamp(min(n/1000,1) * max(1 - cv*0.5, 0.3), 0.1, 0.95)` for every
sample count and nonnegative cv, and every emitted recommendation
(CPU or memory) carries a confidence in [0.1, 0.95]. -/
theorem confidence_clamp_formula :
    (∀ (n : ℕ) (cv : ℚ), 0 ≤ cv →
      calculateConfidence n cv =
        min (max (min ((n : ℚ)/1000) 1 * max (1 - cv * (5/10)) (3/10)) (1/10)) (95/100)) ∧
    (∀ (ra : RightsizingAnalyzer) (cr cl p50 p95 p99 maxV avg sd : ℚ) (n : ℕ)
        (rec : Recommendation),
      calculateCPURecommendation ra cr cl p50 p95 p99 maxV avg sd n = some rec →
        1/10 ≤ rec.confidence ∧ rec.confidence ≤ 95/100) ∧
    (∀ (ra : RightsizingAnalyzer) (cr cl p50 p95 p99 maxV avg sd : ℚ) (n : ℕ)
        (rec : Recommendation),
      calculateMemoryRecommendation ra cr cl p50 p95 p99 maxV avg sd n = some rec →
        1/10 ≤ rec.confidence ∧ rec.confidence ≤ 95/100) := by
  refine ⟨fun n cv _ => ?_, fun ra cr cl p50 p95 p99 maxV avg sd n rec h => ?_,
    fun ra cr cl p50 p95 p99 maxV avg sd n rec h => ?_⟩
  · simp only [calculateConfidence]
    rw [if_lt_right, if_lt_right, if_gt_right]
  · simp only [calculateCPURecommendation] at h
    split_ifs at h <;>
      first
        | exact (Option.noConfusion h)
        | (rw [← Option.some.inj h]; exact calculateConfidence_bounds _ _)
  · simp only [calculateMemoryRecommendation] at h
    split_ifs at h <;>
      first
        | exact (Option.noConfusion h)
        | (rw [← Option.some.inj h]; exact calculateConfidence_bounds _ _)

/-- C3 witness: the clamp formula instantiated at n=500, cv=0, and the
[0.1, 0.95] bound at the concretely emitted CPU and memory
recommendations. -/
theorem confidence_clamp_formula_witness :
    calculateConfidence 500 0 =
      min (max (min ((500 : ℚ)/1000) 1 * max (1 - 0 * (5/10)) (3/10)) (1/10)) (95/100) ∧
    (1/10 ≤ cpuExampleRec.confidence ∧ cpuExampleRec.confidence ≤ 95/100) ∧
    (1/10 ≤ memExampleRec.confidence ∧ memExampleRec.confidence ≤ 95/100) :=
  ⟨confidence_clamp_formula.1 500 0 (by norm_num),
   confidence_clamp_formula.2.1 NewRightsizingAnalyzer 400 800 100 180 220 250 120 30 500
     cpuExampleRec cpu_example_eq,
   confidence_clamp_formula.2.2 NewRightsizingAnalyzer 1048576000 0 0
     (650 * 1048576 / 11) 0 (70 * 1048576) 1 0 500 memExampleRec mem_example_eq⟩

/-- C4: every emitted CPU recommendation has request ≥ 10 millicores
and limit ≥ 1.5 × request, and its reasoning string is exactly the
tier reasoning with each floor's annotation appended precisely when
that floor raised the value. -/
theorem cpu_floor_invariants :
    ∀ (ra : RightsizingAnalyzer) (cr cl p50 p95 p99 maxV avg sd : ℚ) (n : ℕ)
      (rec : Recommendation),
      calculateCPURecommendation ra cr cl p50 p95 p99 maxV avg sd n = some rec →
        10 ≤ rec.recommendedRequest ∧
        rec.recommendedRequest * (15/10) ≤ rec.recommendedLimit ∧
        rec.reasoning =
          (cpuLimitTier (if avg = 0 then 0 else sd/avg) p99 maxV).2.1
            ++ (if p95 * (115/100) < 10 then " (adjusted to minimum 10m CPU)" else "")
            ++ (if (cpuLimitTier (if avg = 0 then 0 else sd/avg) p99 maxV).1 <
                  (if p95 * (115/100) < 10 then (10 : ℚ) else p95 * (115/100)) * (15/10)
                then " (adjusted limit to 1.5x request)" else "") := by
  intro ra cr cl p50 p95 p99 maxV avg sd n rec h
  simp only [calculateCPURecommendation] at h
  by_cases hg : ((cr - p95)/cr < ra.wasteThreshold ∧
      calculateConfidence n (if avg = 0 then 0 else sd/avg) > 7/10)
  · rw [if_pos hg] at h
    exact (Option.noConfusion h)
  · rw [if_neg hg] at h
    by_cases h1 : p95 * (115/100) < 10
    · simp only [if_pos h1] at h ⊢
      by_cases h2 : (cpuLimitTier (if avg = 0 then 0 else sd/avg) p99 maxV).1 < 10 * (15/10)
      · simp only [if_pos h2] at h ⊢
        rw [← Option.some.inj h]
        exact ⟨by norm_num, by norm_num, rfl⟩
      · simp only [if_neg h2] at h ⊢
        rw [← Option.some.inj h]
        refine ⟨by norm_num, by dsimp only; linarith, ?_⟩
        simp
    · simp only [if_neg h1] at h ⊢
      by_cases h2 : (cpuLimitTier (if avg = 0 then 0 else sd/avg) p99 maxV).1 <
          p95 * (115/100) * (15/10)
      · simp only [if_pos h2] at h ⊢
        rw [← Option.some.inj h]
        refine ⟨by dsimp only; linarith, by norm_num, ?_⟩
        simp
      · simp only [if_neg h2] at h ⊢
        rw [← Option.some.inj h]
        refine ⟨by dsimp only; linarith, by dsimp only; linarith, ?_⟩
        simp

/-- C4 witness: the floor invariants at the worked example, where the
limit floor fired and the request floor did not. -/
theorem cpu_floor_invariants_witness :
    10 ≤ cpuExampleRec.recommendedRequest ∧
    cpuExampleRec.recommendedRequest * (15/10) ≤ cpuExampleRec.recommendedLimit ∧
    cpuExampleRec.reasoning =
      (cpuLimitTier (if (120 : ℚ) = 0 then 0 else 30/120) 220 250).2.1
        ++ (if (180 : ℚ) * (115/100) < 10 then " (adjusted to minimum 10m CPU)" else "")
        ++ (if (cpuLimitTier (if (120 : ℚ) = 0 then 0 else 30/120) 220 250).1 <
              (if (180 : ℚ) * (115/100) < 10 then (10 : ℚ) else 180 * (115/100)) * (15/10)
            then " (adjusted limit to 1.5x request)" else "") :=
  cpu_floor_invariants NewRightsizingAnalyzer 400 800 100 180 220 250 120 30 500
    cpuExampleRec cpu_example_eq

/-- C5: every emitted memory recommendation keeps its limit at or above
1.20 × the maximum observed usage: MiB rounding rounds up and the
1.5x-request floor only raises the limit. -/
theorem mem_oom_buffer_lower_bound :
    ∀ (ra : RightsizingAnalyzer) (cr cl p50 p95 p99 maxV avg sd : ℚ) (n : ℕ)
      (rec : Recommendation),
      calculateMemoryRecommendation ra cr cl p50 p95 p99 maxV avg sd n = some rec →
        maxV * (12/10) ≤ rec.recommendedLimit := by
  intro ra cr cl p50 p95 p99 maxV avg sd n rec h
  have hceil := ceil_mib_ge (maxV * (12/10))
  simp only [calculateMemoryRecommendation] at h
  split_ifs at h <;>
    first
      | exact (Option.noConfusion h)
      | (rw [← Option.some.inj h]; dsimp only; linarith)

/-- C5 witness: the OOM buffer bound at the concrete memory example
(max = 70 MiB, emitted limit 97.5 MiB ≥ 84 MiB). -/
theorem mem_oom_buffer_lower_bound_witness :
    (70 : ℚ) * 1048576 * (12/10) ≤ memExampleRec.recommendedLimit :=
  mem_oom_buffer_lower_bound NewRightsizingAnalyzer 1048576000 0 0
    (650 * 1048576 / 11) 0 (70 * 1048576) 1 0 500 memExampleRec mem_example_eq

/-- Evaluation of the period switch at "daily". -/
lemma periodMultiplier_daily : periodMultiplier "daily" = 24 := by
  rw [periodMultiplier, if_pos rfl]

/-- Evaluation of the period switch at "monthly". -/
lemma periodMultiplier_monthly : periodMultiplier "monthly" = 720 := by
  rw [periodMultiplier, if_neg (by decide : ¬("monthly" : String) = "daily"), if_pos rfl]
  norm_num

/-- Evaluation of the period switch at "yearly". -/
lemma periodMultiplier_yearly : periodMultiplier "yearly" = 8760 := by
  rw [periodMultiplier, if_neg (by decide : ¬("yearly" : String) = "daily"),
    if_neg (by decide : ¬("yearly" : String) = "monthly"), if_pos rfl]
  norm_num

/-- C6 counterexample: on the `memExampleRec` inputs the emitted memory
limit is 102236160 bytes = 97.5 MiB, whose quotient by 1 MiB has
fractional part 1/2 ≠ 0, so it is not an integer multiple of 1 MiB
(the 1.5x-request floor fired on an odd 65 MiB request). -/
theorem mem_mib_rounding_counterexample :
    calculateMemoryRecommendation NewRightsizingAnalyzer 1048576000 0 0
      (650 * 1048576 / 11) 0 (70 * 1048576) 1 0 500 = some memExampleRec ∧
    memExampleRec.recommendedLimit = 102236160 ∧
    Int.fract (memExampleRec.recommendedLimit / 1048576) = 1/2 ∧
    (1/2 : ℚ) ≠ 0 :=
  ⟨mem_example_eq, by norm_num [memExampleRec], by norm_num [memExampleRec, Int.fract],
    by norm_num⟩

/-- C6 amended: every emitted memory recommendation has its request a
whole multiple of 1 MiB (1048576 bytes) and its limit a whole multiple
of 0.5 MiB (524288 bytes); the limit is a whole MiB multiple except
when the 1.5x-request floor fires on an odd-MiB request. -/
theorem mem_mib_granularity :
    ∀ (ra : RightsizingAnalyzer) (cr cl p50 p95 p99 maxV avg sd : ℚ) (n : ℕ)
      (rec : Recommendation),
      calculateMemoryRecommendation ra cr cl p50 p95 p99 maxV avg sd n = some rec →
        (∃ k : ℤ, rec.recommendedRequest = (k : ℚ) * 1048576) ∧
        (∃ k : ℤ, rec.recommendedLimit = (k : ℚ) * 524288) := by
  intro ra cr cl p50 p95 p99 maxV avg sd n rec h
  simp only [calculateMemoryRecommendation] at h
  split_ifs at h with h1 h2 h3 h4 h5 h6 <;>
    first
      | exact (Option.noConfusion h)
      | (rw [← Option.some.inj h]
         constructor
         · dsimp only
           first
             | (refine ⟨64, ?_⟩; norm_num; done)
             | exact ⟨⌈p95 * (11/10) / 1048576⌉, rfl⟩
         · dsimp only
           first
             | (refine ⟨192, ?_⟩; norm_num; done)
             | (refine ⟨3 * ⌈p95 * (11/10) / 1048576⌉, ?_⟩; push_cast; ring_nf; done)
             | (refine ⟨2 * ⌈maxV * (12/10) / 1048576⌉, ?_⟩; push_cast; ring_nf; done))

/-- C6 amended witness: the granularity statement at the concrete
memory example (request 65 MiB, limit 97.5 MiB = 195 · 0.5 MiB). -/
theorem mem_mib_granularity_witness :
    (∃ k : ℤ, memExampleRec.recommendedRequest = (k : ℚ) * 1048576) ∧
    (∃ k : ℤ, memExampleRec.recommendedLimit = (k : ℚ) * 524288) :=
  mem_mib_granularity NewRightsizingAnalyzer 1048576000 0 0
    (650 * 1048576 / 11) 0 (70 * 1048576) 1 0 500 memExampleRec mem_example_eq

/-- The CPU recommendation emitted for currentRequest=100, all usage
statistics 1 (mean 1, stddev 0, 500 samples): the 10-millicore floor
fires, but the savings were computed from the pre-floor request 1.15. -/
def cpuFloorRec : Recommendation :=
  { resourceType := "CPU"
    currentRequest := 100
    currentLimit := 100
    recommendedRequest := 10
    recommendedLimit := 15
    p50Usage := 1
    p95Usage := 1
    p99Usage := 1
    maxUsage := 1
    potentialSavings := 17793/25000
    confidence := 1/2
    reasoning := "Low variability workload, using P99 + 20% for limit" ++
      " (adjusted to minimum 10m CPU)" ++ " (adjusted limit to 1.5x request)"
    riskLevel := "LOW" }

/-- Concrete evaluation of the CPU recommendation on the floor-firing
inputs. -/
lemma cpu_floor_example_eq :
    calculateCPURecommendation NewRightsizingAnalyzer 100 100 1 1 1 1 1 0 500 =
      some cpuFloorRec := by
  norm_num [calculateCPURecommendation, calculateConfidence, cpuLimitTier,
    NewRightsizingAnalyzer, cpuFloorRec]

/-- C7 counterexample: on the `cpuFloorRec` inputs the emitted
recommendation carries recommendedRequest = 10 (floored) but
potentialSavings = (100 - 1.15)·0.00001·720 = 0.71172, which differs
from (100 - 10)·0.00001·720 = 0.648 computed from the emitted request. -/
theorem savings_pre_floor_counterexample :
    calculateCPURecommendation NewRightsizingAnalyzer 100 100 1 1 1 1 1 0 500 =
      some cpuFloorRec ∧
    cpuFloorRec.recommendedRequest = 10 ∧
    cpuFloorRec.potentialSavings = 17793/25000 ∧
    cpuFloorRec.potentialSavings ≠
      (cpuFloorRec.currentRequest - cpuFloorRec.recommendedRequest) * (1/100000) * 720 :=
  ⟨cpu_floor_example_eq, by norm_num [cpuFloorRec], by norm_num [cpuFloorRec],
    by norm_num [cpuFloorRec]⟩

/-- C7 amended: every emitted recommendation's potentialSavings equals
(currentRequest - preFloorRequest) · unitCost · 720, where
preFloorRequest is p95·1.15 for CPU (resp. the MiB-rounded p95·1.10
for memory) before the minimum-request floor, with distinct unit costs
0.00001 ($/millicore·h) and 0.00000001 ($/byte·h). -/
theorem savings_pre_floor :
    ∀ (ra : RightsizingAnalyzer) (cr cl p50 p95 p99 maxV avg sd : ℚ) (n : ℕ),
      (∀ rec : Recommendation,
        calculateCPURecommendation ra cr cl p50 p95 p99 maxV avg sd n = some rec →
          rec.potentialSavings = (cr - p95 * (115/100)) * (1/100000) * 720) ∧
      (∀ rec : Recommendation,
        calculateMemoryRecommendation ra cr cl p50 p95 p99 maxV avg sd n = some rec →
          rec.potentialSavings =
            (cr - (⌈p95 * (11/10) / 1048576⌉ : ℚ) * 1048576) * (1/100000000) * 720) := by
  intro ra cr cl p50 p95 p99 maxV avg sd n
  constructor
  · intro rec h
    simp only [calculateCPURecommendation] at h
    split_ifs at h <;>
      first
        | exact (Option.noConfusion h)
        | (rw [← Option.some.inj h]; dsimp only; ring)
  · intro rec h
    simp only [calculateMemoryRecommendation] at h
    split_ifs at h <;>
      first
        | exact (Option.noConfusion h)
        | (rw [← Option.some.inj h]; dsimp only; ring)

/-- C7 amended witness: the pre-floor savings formula at the concrete
floor-firing CPU input and at the concrete memory example. -/
theorem savings_pre_floor_witness :
    cpuFloorRec.potentialSavings = ((100 : ℚ) - 1 * (115/100)) * (1/100000) * 720 ∧
    memExampleRec.potentialSavings =
      ((1048576000 : ℚ) -
        (⌈(650 * 1048576 / 11 : ℚ) * (11/10) / 1048576⌉ : ℚ) * 1048576) * (1/100000000) * 720 :=
  ⟨(savings_pre_floor NewRightsizingAnalyzer 100 100 1 1 1 1 1 0 500).1
      cpuFloorRec cpu_floor_example_eq,
   (savings_pre_floor NewRightsizingAnalyzer 1048576000 0 0
      (650 * 1048576 / 11) 0 (70 * 1048576) 1 0 500).2 memExampleRec mem_example_eq⟩

/-- The simulation change used in the C8 counterexample: drop a
workload's CPU request from 50000 to 0 millicores at one replica. -/
def simCounterChange : SimChange :=
  { cpuRequest := 0, cpuLimit := 0, memoryRequest := 0, memoryLimit := 0,
    replicas := 1, currentCpuRequest := 50000, currentMemoryRequest := 0 }

/-- C8 counterexample: with baseline hourly cost 1 and a single change
of delta -0.5 over a monthly period, savings = 360 and the response's
savingsPercent is 50, not savings/(baseline·multiplier) = 0.5: the
handler multiplies the ratio by 100. -/
theorem simulate_percent_counterexample :
    (SimulateCosts 1 [simCounterChange] "monthly").savings = 360 ∧
    (SimulateCosts 1 [simCounterChange] "monthly").savingsPercent = 50 ∧
    ((50 : ℚ) ≠ 360 / ((1 : ℚ) * 720)) := by
  norm_num [SimulateCosts, simChangeDelta, simCounterChange, periodMultiplier_monthly]

/-- C8 amended: multipliers are 24/720/8760 for daily/monthly/yearly;
projectedCost = (baseline + Σdelta)·multiplier; savings =
baseline·multiplier - projectedCost; savingsPercent =
savings/(baseline·multiplier) · 100 (a percentage, not a fraction);
breakdown splits projectedCost with ratios 0.60/0.20/0.15/0.05. -/
theorem simulate_cost_formulas :
    ∀ (B : ℚ) (changes : List SimChange) (period : String),
      periodMultiplier "daily" = 24 ∧
      periodMultiplier "monthly" = 720 ∧
      periodMultiplier "yearly" = 8760 ∧
      (SimulateCosts B changes period).projectedCost =
        (B + changes.foldl (fun acc c =>
            acc + ((c.cpuRequest - c.currentCpuRequest) * (1/100000) * (c.replicas : ℚ)
              + (c.memoryRequest - c.currentMemoryRequest) * (1/100000000) * (c.replicas : ℚ))) 0)
          * periodMultiplier period ∧
      (SimulateCosts B changes period).savings =
        B * periodMultiplier period - (SimulateCosts B changes period).projectedCost ∧
      (SimulateCosts B changes period).savingsPercent =
        (SimulateCosts B changes period).savings / (B * periodMultiplier period) * 100 ∧
      (SimulateCosts B changes period).breakdownCompute =
        (SimulateCosts B changes period).projectedCost * (6/10) ∧
      (SimulateCosts B changes period).breakdownStorage =
        (SimulateCosts B changes period).projectedCost * (2/10) ∧
      (SimulateCosts B changes period).breakdownNetwork =
        (SimulateCosts B changes period).projectedCost * (15/100) ∧
      (SimulateCosts B changes period).breakdownOther =
        (SimulateCosts B changes period).projectedCost * (5/100) := by
  intro B changes period
  refine ⟨periodMultiplier_daily, periodMultiplier_monthly, periodMultiplier_yearly,
    ?_, rfl, rfl, rfl, rfl, rfl, rfl⟩
  simp only [SimulateCosts, simChangeDelta]

/-- C9: the circuit breaker's state machine: (i) an Open breaker within
the cooldown short-circuits Execute (the wrapped function is not
invoked, an immediate error is returned); (ii) Closed moves to Open on
a failure exactly when the consecutive-failure count reaches the
threshold; (iii) after the cooldown an Open breaker allows the call
and moves to HalfOpen; (iv) HalfOpen moves to Open on any failure;
(v) with the success threshold 3, HalfOpen moves to Closed on a
success exactly when 3 consecutive successes are reached. -/
theorem circuit_breaker_transitions :
    (∀ (cb : CircuitBreaker) (t : ℚ) (o : Bool), cb.state = .opened →
      t - cb.lastFailure < cb.timeout → (Execute cb t o).1 = false) ∧
    (∀ (cb : CircuitBreaker) (t : ℚ), cb.state = .closed →
      (((Execute cb t true).2).state = .opened ↔ cb.threshold ≤ cb.failures + 1)) ∧
    (∀ (cb : CircuitBreaker) (t : ℚ), cb.state = .opened →
      cb.timeout < t - cb.lastFailure →
        (canExecute cb t).1 = true ∧ ((canExecute cb t).2).state = .halfOpen) ∧
    (∀ (cb : CircuitBreaker) (t : ℚ), cb.state = .halfOpen →
      ((Execute cb t true).2).state = .opened) ∧
    (∀ (cb : CircuitBreaker) (t : ℚ), cb.state = .halfOpen → cb.successThreshold = 3 →
      (((Execute cb t false).2).state = .closed ↔ 3 ≤ cb.successes + 1)) := by
  refine ⟨?_, ?_, ?_, ?_, ?_⟩
  · intro cb t o hst hlt
    simp [Execute, canExecute, hst, if_neg (not_lt.mpr hlt.le)]
  · intro cb t hst
    simp only [Execute, canExecute, recordResult, hst]
    by_cases hth : cb.threshold ≤ cb.failures + 1
    · simp [hth, hst]
    · simp [hth, hst]
  · intro cb t hst hgt
    simp [canExecute, hst, if_pos hgt]
  · intro cb t hst
    simp [Execute, canExecute, recordResult, hst]
  · intro cb t hst hth
    simp only [Execute, canExecute, recordResult, hst, hth]
    by_cases hs : 3 ≤ cb.successes + 1
    · simp [hs, hst, hth]
    · simp [hs, hst, hth]

/-- An Open breaker with threshold 1, cooldown 10, last failure at 0. -/
def cbOpenEx : CircuitBreaker :=
  { state := .opened, failures := 1, threshold := 1, timeout := 10,
    lastFailure := 0, successes := 0, successThreshold := 3 }

/-- A HalfOpen breaker that has seen one trial success. -/
def cbHalfOpenEx1 : CircuitBreaker :=
  { state := .halfOpen, failures := 0, threshold := 1, timeout := 10,
    lastFailure := 0, successes := 1, successThreshold := 3 }

/-- A HalfOpen breaker that has seen two trial successes. -/
def cbHalfOpenEx2 : CircuitBreaker :=
  { state := .halfOpen, failures := 0, threshold := 1, timeout := 10,
    lastFailure := 0, successes := 2, successThreshold := 3 }

/-- C9 witness: the five transition facts at concrete breakers: an Open
breaker (last failure at 0, cooldown 10) short-circuits at t=5 and
half-opens at t=11; a fresh breaker with threshold 1 opens on failure;
a HalfOpen breaker opens on failure and closes on its third success. -/
theorem circuit_breaker_transitions_witness :
    (Execute cbOpenEx 5 true).1 = false ∧
    ((Execute (NewCircuitBreaker 1 10) 5 true).2).state = .opened ∧
    (canExecute cbOpenEx 11).1 = true ∧
    ((canExecute cbOpenEx 11).2).state = .halfOpen ∧
    ((Execute cbHalfOpenEx1 12 true).2).state = .opened ∧
    ((Execute cbHalfOpenEx2 12 false).2).state = .closed := by
  refine ⟨?_, ?_, ?_, ?_, ?_, ?_⟩
  · exact circuit_breaker_transitions.1 cbOpenEx 5 true rfl (by norm_num [cbOpenEx])
  · exact (circuit_breaker_transitions.2.1 (NewCircuitBreaker 1 10) 5 rfl).mpr
      (by norm_num [NewCircuitBreaker])
  · exact (circuit_breaker_transitions.2.2.1 cbOpenEx 11 rfl (by norm_num [cbOpenEx])).1
  · exact (circuit_breaker_transitions.2.2.1 cbOpenEx 11 rfl (by norm_num [cbOpenEx])).2
  · exact circuit_breaker_transitions.2.2.2.1 cbHalfOpenEx1 12 rfl
  · exact (circuit_breaker_transitions.2.2.2.2 cbHalfOpenEx2 12 rfl rfl).mpr
      (by norm_num [cbHalfOpenEx2])

/-- C10: with a nonzero current request every division in the two
recommendation functions is well-defined: the checked variants (which
fail on an unguarded zero denominator) return exactly the unchecked
results; with a zero current request the unguarded waste division
makes them fail. The cv division needs no hypothesis because the
source guards it (cv = 0 when the mean is 0). -/
theorem waste_division_guard :
    ∀ (ra : RightsizingAnalyzer) (cr cl p50 p95 p99 maxV avg sd : ℚ) (n : ℕ),
      (cr ≠ 0 →
        calculateCPURecommendationChecked ra cr cl p50 p95 p99 maxV avg sd n =
          some (calculateCPURecommendation ra cr cl p50 p95 p99 maxV avg sd n) ∧
        calculateMemoryRecommendationChecked ra cr cl p50 p95 p99 maxV avg sd n =
          some (calculateMemoryRecommendation ra cr cl p50 p95 p99 maxV avg sd n)) ∧
      (cr = 0 →
        calculateCPURecommendationChecked ra cr cl p50 p95 p99 maxV avg sd n = none ∧
        calculateMemoryRecommendationChecked ra cr cl p50 p95 p99 maxV avg sd n = none) := by
  intro ra cr cl p50 p95 p99 maxV avg sd n
  constructor
  · intro h
    constructor
    · simp only [calculateCPURecommendationChecked, calculateCPURecommendation,
        checkedDiv, if_neg h]
    · simp only [calculateMemoryRecommendationChecked, calculateMemoryRecommendation,
        checkedDiv, if_neg h]
  · intro h
    subst h
    constructor
    · simp [calculateCPURecommendationChecked, checkedDiv]
    · simp [calculateMemoryRecommendationChecked, checkedDiv]

/-- C10 witness: the checked/unchecked agreement at the worked-example
CPU input (currentRequest 400 ≠ 0) and the failure at currentRequest 0. -/
theorem waste_division_guard_witness :
    calculateCPURecommendationChecked NewRightsizingAnalyzer 400 800 100 180 220 250 120 30 500 =
      some (calculateCPURecommendation NewRightsizingAnalyzer 400 800 100 180 220 250 120 30 500) ∧
    calculateCPURecommendationChecked NewRightsizingAnalyzer 0 800 100 180 220 250 120 30 500 =
      none :=
  ⟨((waste_division_guard NewRightsizingAnalyzer 400 800 100 180 220 250 120 30 500).1
      (by norm_num)).1,
   ((waste_division_guard NewRightsizingAnalyzer 0 800 100 180 220 250 120 30 500).2 rfl).1⟩

end Kost
